import Mathlib

/-!
Shallow embedding of the resilience core of the Resilient-Email-Service
repository (src/main.js): the failover dispatcher `MockEmailService.sendEmail`,
the admission-control middleware `requestTrackingMiddleware` with its
per-caller `ipMap`, the exponential-backoff helper `getBackoffDelay`, and the
`POST /sendEmail` handler with its content-hash `idempotencyMap`.

Modelling conventions:
- JS numbers used as counters and timestamps are `Nat` (`Date.now()` values
  are nonnegative; the only subtraction, `now - timeStamp`, is compared
  against the positive window length, and truncated `Nat` subtraction decides
  those comparisons exactly as JS signed subtraction does).
- A provider's `sendMail` call is an external collaborator: its outcome is
  passed in as `Except String Unit` (`.ok` = the awaited promise resolved,
  `.error` = it threw and control jumps to the `catch` block).
- The SHA-256 digest from node's `crypto` module is an external collaborator:
  it is passed in as an arbitrary function `h : String → String` applied to
  the exact string the source builds. Facts that hold for every `h`
  hold in particular for SHA-256.
- The JS `Map`s become: `ipMap` a function `String → Option CallerWindow`
  (`Map.get` / `Map.set` keyed by `req.ip`), and `idempotencyMap` a list of
  present keys (its values are always `true`, only key presence is read).
-/

/-- The body of a `POST /sendEmail` request: `{from, to, subject, text}`. -/
structure EmailRequest where
  «from» : String
  «to» : String
  subject : String
  text : String
deriving DecidableEq, Repr

/-- The status record returned by `MockEmailService.sendEmail`
(src/main.js lines 58–144): `provider` is `"A"`, `"B"` or `null`,
`error` is present only on the failure paths. -/
structure DeliveryOutcome where
  provider : Option String
  sent : Bool
  fallbackTried : Bool
  timestamp : Nat
  error : Option String
deriving DecidableEq, Repr

namespace MockEmailService

/-- `MockEmailService.sendEmail` (src/main.js lines 58–144), with the two
`Math.random() < 0.33` draws (`simulateAFails`, `simulateBFails`) and the two
providers' `sendMail` outcomes (`sendA`, `sendB`) passed in, and `Date.now()`
at return time passed in as `now`.  Each `try { await … sendMail … } catch`
becomes a match on the corresponding outcome, the `catch` branch returning
the caught-path record; a value that escaped uncaught would be `.error`,
but every `sendMail` call of the source sits inside a `try`. -/
def sendEmail (simulateAFails simulateBFails : Bool)
    (sendA sendB : Except String Unit) (now : Nat) :
    Except String DeliveryOutcome :=
  -- Case 1: A fails, B works
  if simulateAFails && !simulateBFails then
    match sendB with
    | .ok _ => .ok ⟨some "B", true, true, now, none⟩
    | .error _ => .ok ⟨none, false, true, now, some "Fallback failed"⟩
  -- Case 2: B fails, A works
  else if !simulateAFails && simulateBFails then
    match sendA with
    | .ok _ => .ok ⟨some "A", true, true, now, none⟩
    | .error _ => .ok ⟨none, false, true, now, some "Fallback failed"⟩
  -- Case 3: Both fail
  else if simulateAFails && simulateBFails then
    .ok ⟨none, false, false, now, some "Both providers failed"⟩
  -- Case 4: Neither failed → use A by default
  else
    match sendA with
    | .ok _ => .ok ⟨some "A", true, false, now, none⟩
    | .error _ => .ok ⟨none, false, false, now, some "Both providers failed"⟩

/-- Which provider's `sendMail` method `sendEmail` invokes, branch by branch
(src/main.js: line 67 calls `providerB`, line 91 calls `providerA`, the
both-fail branch calls neither, line 126 calls `providerA`). -/
def attemptedProvider (simulateAFails simulateBFails : Bool) : Option String :=
  if simulateAFails && !simulateBFails then some "B"
  else if !simulateAFails && simulateBFails then some "A"
  else if simulateAFails && simulateBFails then none
  else some "A"

end MockEmailService

/-- A per-caller entry of `ipMap` (src/main.js lines 156 and 169):
`{retryCount, requests, timeStamp}`. -/
structure CallerWindow where
  retryCount : Nat
  requests : Nat
  timeStamp : Nat
deriving DecidableEq, Repr

/-- The reason attached to a 403 denial by `requestTrackingMiddleware`:
line 175 ("MAXIMUM NUMBER OF RETRIES") or line 182 ("MAXIMUM NUMBER OF
REQUESTS"). -/
inductive DenyReason where
  | maxRetriesExceeded : DenyReason
  | maxRequestsExceeded : DenyReason
deriving DecidableEq, Repr

/-- What `requestTrackingMiddleware` does with the request: a 403 denial, or
`next()` with the computed backoff delay attached as `req.delay`, after
having observed the updated `retryCount`. -/
inductive Decision where
  | denied : DenyReason → Decision
  | admitted : Nat → Nat → Decision
deriving DecidableEq, Repr

/-- `const window = 1000` (src/main.js line 150). -/
def window : Nat := 1000

/-- `const maxRetries = 3` (src/main.js line 148). -/
def maxRetries : Nat := 3

/-- `const maxRequests = 3` (src/main.js line 149). -/
def maxRequests : Nat := 3

/-- `getBackoffDelay(retryCount, baseDelay = 100)` (src/main.js lines
151–153): `baseDelay * Math.pow(2, retryCount)`. -/
def getBackoffDelay (retryCount baseDelay : Nat) : Nat :=
  baseDelay * 2 ^ retryCount

/-- The entry-update phase of `requestTrackingMiddleware` (src/main.js lines
154–171): a fresh entry `{retryCount:1, requests:1, timeStamp:now}` on first
sight of the ip, both counters incremented in place while
`now - val.timeStamp < window`, and a fresh entry again once the window has
elapsed. -/
def updateEntry (entry : Option CallerWindow) (now : Nat) : CallerWindow :=
  match entry with
  | none => ⟨1, 1, now⟩
  | some v =>
    if now - v.timeStamp < window then
      ⟨v.retryCount + 1, v.requests + 1, v.timeStamp⟩
    else
      ⟨1, 1, now⟩

/-- `requestTrackingMiddleware` (src/main.js lines 147–185) acting on the
entry map `ipMap` for caller `ip` at time `now = Date.now()`: first the
entry for `ip` is created / incremented / reset in the map (lines 154–171),
then the two threshold checks run on the updated entry (lines 173–183); if
both pass, the request is admitted carrying the backoff delay
`getBackoffDelay(val.retryCount)` (line 178).  Returns the updated map
together with the decision. -/
def requestTrackingMiddleware (ipMap : String → Option CallerWindow)
    (ip : String) (now : Nat) : (String → Option CallerWindow) × Decision :=
  let val : CallerWindow := updateEntry (ipMap ip) now
  let ipMap2 : String → Option CallerWindow :=
    fun k => if k = ip then some val else ipMap k
  let decision : Decision :=
    if maxRetries < val.retryCount then
      .denied .maxRetriesExceeded
    else if val.requests > maxRequests then
      .denied .maxRequestsExceeded
    else
      .admitted val.retryCount (getBackoffDelay val.retryCount 100)
  (ipMap2, decision)

/-- The `ipMap` before any request has been seen: `new Map()`
(src/main.js line 11). -/
def emptyIpMap : String → Option CallerWindow := fun _ => none

/-- Runs `requestTrackingMiddleware` over a sequence of requests, each given
as `(req.ip, Date.now())`, threading the map and collecting the decision of
every call in order. -/
def runRequests (ipMap : String → Option CallerWindow) :
    List (String × Nat) → (String → Option CallerWindow) × List Decision
  | [] => (ipMap, [])
  | c :: rest =>
    let r := requestTrackingMiddleware ipMap c.1 c.2
    let rr := runRequests r.1 rest
    (rr.1, r.2 :: rr.2)

/-- The string the `POST /sendEmail` handler feeds to the SHA-256 digest
(src/main.js line 203): the template literal
`${body.from}-${body.to}-${body.subject}-${body.text}`. -/
def fingerprintInput (body : EmailRequest) : String :=
  body.«from» ++ "-" ++ body.«to» ++ "-" ++ body.subject ++ "-" ++ body.text

/-- The response body chosen by the `POST /sendEmail` handler: the
"Duplicate email skipped (idempotent)" page (src/main.js lines 207–215) or
the "Email Status" page rendering a `DeliveryOutcome` (lines 232–245). -/
inductive SendEmailResponse where
  | duplicatePage : SendEmailResponse
  | statusPage : DeliveryOutcome → SendEmailResponse
deriving DecidableEq, Repr

/-- The side effects of one `POST /sendEmail` handler run, in program
order: line 218 (`idempotencyMap.set(hash, true)`) and line 230 (the
dispatcher invocation `emailService.sendEmail(emailData)`). -/
inductive HandlerEvent where
  | insertFingerprint : String → HandlerEvent
  | dispatch : HandlerEvent
deriving DecidableEq, Repr

instance {ε α : Type} [DecidableEq ε] [DecidableEq α] :
    DecidableEq (Except ε α) := fun a b =>
  match a, b with
  | .ok x, .ok y =>
    if h : x = y then .isTrue (congrArg Except.ok h)
    else .isFalse (fun he => h (Except.ok.inj he))
  | .error x, .error y =>
    if h : x = y then .isTrue (congrArg Except.error h)
    else .isFalse (fun he => h (Except.error.inj he))
  | .ok _, .error _ => .isFalse (fun he => Except.noConfusion he)
  | .error _, .ok _ => .isFalse (fun he => Except.noConfusion he)

/-- The observable result of one `POST /sendEmail` handler run: the chosen
response (`.error` if an exception escaped the async handler), the
`idempotencyMap` after the run, and the ordered side-effect trace. -/
structure HandlerRun where
  response : Except String SendEmailResponse
  idempotencyMap : List String
  events : List HandlerEvent
deriving DecidableEq, Repr

/-- The `POST /sendEmail` handler (src/main.js lines 199–245): hash the
joined body fields with the digest `h`, short-circuit to the duplicate page
if the hash is already a key of `idempotencyMap`, otherwise insert the hash
first and only then invoke the dispatcher, rendering whatever outcome it
reports.  The failure draws and provider outcomes feeding the dispatcher are
passed through. -/
def handleSendEmail (h : String → String)
    (simulateAFails simulateBFails : Bool) (sendA sendB : Except String Unit)
    (now : Nat) (idempotencyMap : List String) (body : EmailRequest) :
    HandlerRun :=
  let hash := h (fingerprintInput body)
  if hash ∈ idempotencyMap then
    ⟨.ok .duplicatePage, idempotencyMap, []⟩
  else
    match MockEmailService.sendEmail simulateAFails simulateBFails sendA sendB now with
    | .error e =>
      ⟨.error e, hash :: idempotencyMap, [.insertFingerprint hash, .dispatch]⟩
    | .ok status =>
      ⟨.ok (.statusPage status), hash :: idempotencyMap,
        [.insertFingerprint hash, .dispatch]⟩

/-- A string field is free of the fingerprint delimiter `-`. -/
def dashFree (s : String) : Prop := ('-' : Char) ∉ s.data

instance (s : String) : Decidable (dashFree s) := by
  unfold dashFree
  infer_instance

/-- Claim C1: the dispatcher's outcome table. With `failA=true, failB=true`
no provider is attempted and the outcome is
`{provider:null, sent:false, fallbackTried:false, error:"Both providers failed"}`;
with `failA=false, failB=false` provider A is attempted, on success the
outcome is `{provider:"A", sent:true, fallbackTried:false}` and on exception
`{provider:null, sent:false, fallbackTried:false, error:"Both providers failed"}`;
with `failA=true, failB=false` provider B is attempted, on success the outcome
is `{provider:"B", sent:true, fallbackTried:true}` and on exception
`{provider:null, sent:false, fallbackTried:true, error:"Fallback failed"}`. -/
theorem c1_dispatch_outcome_table (sendA sendB : Except String Unit) (now : Nat) :
    (MockEmailService.attemptedProvider true true = none ∧
      MockEmailService.sendEmail true true sendA sendB now =
        .ok ⟨none, false, false, now, some "Both providers failed"⟩) ∧
    (MockEmailService.attemptedProvider false false = some "A" ∧
      MockEmailService.sendEmail false false (.ok ()) sendB now =
        .ok ⟨some "A", true, false, now, none⟩ ∧
      ∀ e, MockEmailService.sendEmail false false (.error e) sendB now =
        .ok ⟨none, false, false, now, some "Both providers failed"⟩) ∧
    (MockEmailService.attemptedProvider true false = some "B" ∧
      MockEmailService.sendEmail true false sendA (.ok ()) now =
        .ok ⟨some "B", true, true, now, none⟩ ∧
      ∀ e, MockEmailService.sendEmail true false sendA (.error e) now =
        .ok ⟨none, false, true, now, some "Fallback failed"⟩) :=
  ⟨⟨rfl, rfl⟩, ⟨rfl, rfl, fun _ => rfl⟩, ⟨rfl, rfl, fun _ => rfl⟩⟩

/-- Claim C4 counterexample: with `failA=false, failB=true` the code attempts
provider A, not provider B (src/main.js line 91 calls `providerA.sendMail`
in the `!simulateAFails && simulateBFails` branch), so the claim that
"provider A is not used and provider B is attempted" is false. -/
theorem c4_counterexample :
    ¬ (MockEmailService.attemptedProvider false true ≠ some "A" ∧
       MockEmailService.attemptedProvider false true = some "B") := by
  decide

/-- Claim C4 as amended: when the failure draws are `failA=false` and
`failB=true`, provider B is not used and provider A is attempted (the code
treats this branch symmetrically to the A-fails case: it sends through A and
reports `fallbackTried:true`, with error text "Fallback failed" on
exception). -/
theorem c4_amended_provider_choice (now : Nat) :
    MockEmailService.attemptedProvider false true = some "A" ∧
    MockEmailService.attemptedProvider false true ≠ some "B" ∧
    MockEmailService.sendEmail false true (.ok ()) (.ok ()) now =
      .ok ⟨some "A", true, true, now, none⟩ ∧
    ∀ e, MockEmailService.sendEmail false true (.error e) (.ok ()) now =
      .ok ⟨none, false, true, now, some "Fallback failed"⟩ := by
  exact ⟨rfl, by decide, rfl, fun _ => rfl⟩

/-- Claim C9: for every outcome of the failure draws and of the provider
calls (including a call that raises), the dispatcher returns a
`DeliveryOutcome` record — it never lets an exception escape — and a
dispatch failure is surfaced as `sent:false` together with an error
string. -/
theorem c9_dispatch_never_throws (simulateAFails simulateBFails : Bool)
    (sendA sendB : Except String Unit) (now : Nat) :
    ∃ o : DeliveryOutcome,
      MockEmailService.sendEmail simulateAFails simulateBFails sendA sendB now =
        .ok o ∧ (o.sent = false → ∃ msg, o.error = some msg) := by
  cases simulateAFails <;> cases simulateBFails <;>
    cases sendA <;> cases sendB <;>
      exact ⟨_, rfl, by simp⟩

/-- Claim C8: `getBackoffDelay(retryCount, baseDelayMs = 100)` equals
`100 * 2^retryCount`; in particular 200, 400, 800 ms for retryCount 1, 2, 3. -/
theorem c8_backoff_delay_formula :
    (∀ retryCount, getBackoffDelay retryCount 100 = 100 * 2 ^ retryCount) ∧
    getBackoffDelay 1 100 = 200 ∧
    getBackoffDelay 2 100 = 400 ∧
    getBackoffDelay 3 100 = 800 :=
  ⟨fun _ => rfl, by decide, by decide, by decide⟩

/-- One in-window middleware call on an entry with equal counters `k`:
the entry becomes `⟨k+1, k+1, t0⟩` and the decision is "admitted with
retryCount `k+1`" below the threshold, "denied for retries" above it. -/
theorem requestTrackingMiddleware_step_in_window
    (m : String → Option CallerWindow) (ip : String) (k t0 t : Nat)
    (hm : m ip = some ⟨k, k, t0⟩) (ht : t - t0 < window) :
    (requestTrackingMiddleware m ip t).1 ip = some ⟨k + 1, k + 1, t0⟩ ∧
    (requestTrackingMiddleware m ip t).2 =
      (if k + 1 ≤ maxRetries then
        Decision.admitted (k + 1) (getBackoffDelay (k + 1) 100)
      else Decision.denied DenyReason.maxRetriesExceeded) := by
  have hupd : updateEntry (m ip) t = ⟨k + 1, k + 1, t0⟩ := by
    rw [hm]
    simp [updateEntry, ht]
  constructor
  · simp [requestTrackingMiddleware, hupd]
  · by_cases hk : maxRetries < k + 1
    · simp [requestTrackingMiddleware, hupd, hk, Nat.not_le.mpr hk]
    · have hk' : k + 1 ≤ maxRetries := Nat.not_lt.mp hk
      have hreq : ¬ (maxRequests < k + 1) := hk
      simp [requestTrackingMiddleware, hupd, hk, hk', hreq]

/-- Running a block of same-ip calls, all inside the window that opened at
`t0`, starting from an entry with both counters at `k`: the counters advance
by one per call and the `i`-th decision of the block is determined by the
counter value `k + i + 1`. -/
theorem runRequests_same_ip (ip : String) (t0 : Nat) :
    ∀ (ts : List Nat) (k : Nat) (m : String → Option CallerWindow),
      m ip = some ⟨k, k, t0⟩ →
      (∀ t ∈ ts, t - t0 < window) →
      (runRequests m (ts.map fun t => (ip, t))).1 ip =
          some ⟨k + ts.length, k + ts.length, t0⟩ ∧
      ∀ i, i < ts.length →
        ((runRequests m (ts.map fun t => (ip, t))).2).getD i
            (Decision.denied DenyReason.maxRetriesExceeded) =
          (if k + i + 1 ≤ maxRetries then
            Decision.admitted (k + i + 1) (getBackoffDelay (k + i + 1) 100)
          else Decision.denied DenyReason.maxRetriesExceeded) := by
  intro ts
  induction ts with
  | nil =>
    intro k m hm _
    refine ⟨by simpa using hm, ?_⟩
    intro i hi
    exact absurd hi (by simp)
  | cons t ts ih =>
    intro k m hm hall
    have ht : t - t0 < window := hall t (List.mem_cons_self t ts)
    have hstep := requestTrackingMiddleware_step_in_window m ip k t0 t hm ht
    have hrest := ih (k + 1) (requestTrackingMiddleware m ip t).1 hstep.1
      (fun u hu => hall u (List.mem_cons_of_mem t hu))
    constructor
    · have h1 := hrest.1
      have harith : k + 1 + ts.length = k + (t :: ts).length := by
        rw [List.length_cons]; omega
      rw [harith] at h1
      exact h1
    · intro i hi
      cases i with
      | zero =>
        exact hstep.2
      | succ j =>
        have hj : j < ts.length := Nat.lt_of_succ_lt_succ (by simpa using hi)
        have hd := hrest.2 j hj
        have harith : k + 1 + j + 1 = k + (j + 1) + 1 := by omega
        rw [harith] at hd
        exact hd

/-- Claim C2: for every caller and every sequence of middleware calls inside
the 1000 ms window opened by its first call, the Nth call (N ≤ 3) is admitted
and observes `retryCount = N`, and every later call in the same window —
in particular the 4th — is denied for `MaxRetriesExceeded`; the counters are
updated before the checks, so after the denied calls the entry still holds
the full call count. -/
theorem c2_rate_limit_within_window (ip : String) (t0 : Nat) (ts : List Nat)
    (h : ∀ t ∈ ts, t - t0 < window) :
    (∀ i, i < ts.length + 1 →
      ((runRequests emptyIpMap ((t0 :: ts).map fun t => (ip, t))).2).getD i
          (Decision.denied DenyReason.maxRetriesExceeded) =
        (if i + 1 ≤ maxRetries then
          Decision.admitted (i + 1) (getBackoffDelay (i + 1) 100)
        else Decision.denied DenyReason.maxRetriesExceeded)) ∧
    (runRequests emptyIpMap ((t0 :: ts).map fun t => (ip, t))).1 ip =
      some ⟨ts.length + 1, ts.length + 1, t0⟩ := by
  have hm1 : (requestTrackingMiddleware emptyIpMap ip t0).1 ip = some ⟨1, 1, t0⟩ := by
    simp [requestTrackingMiddleware, updateEntry, emptyIpMap]
  have hd1 : (requestTrackingMiddleware emptyIpMap ip t0).2 =
      Decision.admitted 1 (getBackoffDelay 1 100) := by
    simp [requestTrackingMiddleware, updateEntry, emptyIpMap, maxRetries, maxRequests]
  have hrest := runRequests_same_ip ip t0 ts 1
    (requestTrackingMiddleware emptyIpMap ip t0).1 hm1 h
  constructor
  · intro i hi
    cases i with
    | zero =>
      have h13 : (1 : Nat) ≤ maxRetries := by decide
      calc ((runRequests emptyIpMap ((t0 :: ts).map fun t => (ip, t))).2).getD 0
            (Decision.denied DenyReason.maxRetriesExceeded)
          = (requestTrackingMiddleware emptyIpMap ip t0).2 := rfl
        _ = Decision.admitted 1 (getBackoffDelay 1 100) := hd1
        _ = (if 0 + 1 ≤ maxRetries then
              Decision.admitted (0 + 1) (getBackoffDelay (0 + 1) 100)
            else Decision.denied DenyReason.maxRetriesExceeded) := by
            rw [if_pos h13]
    | succ j =>
      have hj : j < ts.length := Nat.lt_of_succ_lt_succ (by simpa using hi)
      have hd := hrest.2 j hj
      have harith : 1 + j + 1 = j + 1 + 1 := by omega
      rw [harith] at hd
      exact hd
  · have h1 := hrest.1
    have harith : 1 + ts.length = ts.length + 1 := by omega
    rw [harith] at h1
    exact h1

/-- Witness for C2 at a concrete input: four calls from ip "a" at times
0, 1, 2, 3 — the 4th decision is the retries denial and the entry ends at
counters 4 with the window still anchored at time 0. -/
theorem c2_rate_limit_within_window_witness :
    (∀ t ∈ ([1, 2, 3] : List Nat), t - 0 < window) ∧
    ((runRequests emptyIpMap [("a", 0), ("a", 1), ("a", 2), ("a", 3)]).2).getD 3
        (Decision.denied DenyReason.maxRetriesExceeded) =
      Decision.denied DenyReason.maxRetriesExceeded ∧
    (runRequests emptyIpMap [("a", 0), ("a", 1), ("a", 2), ("a", 3)]).1 "a" =
      some ⟨4, 4, 0⟩ := by
  have hc := c2_rate_limit_within_window "a" 0 [1, 2, 3] (by decide)
  refine ⟨by decide, ?_, ?_⟩
  · have := hc.1 3 (by norm_num)
    simpa [maxRetries] using this
  · simpa using hc.2

/-- Claim C7: once `now - windowStart ≥ 1000`, the next middleware call for
that caller resets the entry to `{requests:1, retryCount:1, windowStart:now}`
and admits the call with retryCount 1, whatever the previous counters were —
in particular a caller previously denied is admitted again with fresh
counters. -/
theorem c7_window_rollover (m : String → Option CallerWindow) (ip : String)
    (v : CallerWindow) (now : Nat) (hm : m ip = some v)
    (h : window ≤ now - v.timeStamp) :
    (requestTrackingMiddleware m ip now).1 ip = some ⟨1, 1, now⟩ ∧
    (requestTrackingMiddleware m ip now).2 =
      Decision.admitted 1 (getBackoffDelay 1 100) := by
  have hupd : updateEntry (m ip) now = ⟨1, 1, now⟩ := by
    rw [hm]
    simp [updateEntry, Nat.not_lt.mpr h]
  constructor
  · simp [requestTrackingMiddleware, hupd]
  · simp [requestTrackingMiddleware, hupd, maxRetries, maxRequests]

/-- Witness for C7 at a concrete input: an entry exhausted at counters 4
(as after the four calls of the C2 witness) is reset and admitted at time
1500. -/
theorem c7_window_rollover_witness :
    ((fun k => if k = "a" then some (⟨4, 4, 0⟩ : CallerWindow) else none) "a" =
      some ⟨4, 4, 0⟩) ∧
    window ≤ 1500 - (⟨4, 4, 0⟩ : CallerWindow).timeStamp ∧
    (requestTrackingMiddleware
        (fun k => if k = "a" then some ⟨4, 4, 0⟩ else none) "a" 1500).1 "a" =
      some ⟨1, 1, 1500⟩ ∧
    (requestTrackingMiddleware
        (fun k => if k = "a" then some ⟨4, 4, 0⟩ else none) "a" 1500).2 =
      Decision.admitted 1 (getBackoffDelay 1 100) := by
  have hc := c7_window_rollover
    (fun k => if k = "a" then some ⟨4, 4, 0⟩ else none) "a" ⟨4, 4, 0⟩ 1500
    (by decide) (by decide)
  exact ⟨by decide, by decide, hc.1, hc.2⟩

/-- The updated entry always has equal counters, provided the previous entry
(if any) had: both fresh branches set them to `1, 1` and the in-window branch
increments both. -/
theorem updateEntry_counts_eq (entry : Option CallerWindow) (now : Nat)
    (he : ∀ v, entry = some v → v.retryCount = v.requests) :
    (updateEntry entry now).retryCount = (updateEntry entry now).requests := by
  cases entry with
  | none => rfl
  | some v =>
    have hv := he v rfl
    simp only [updateEntry]
    split
    · simp [hv]
    · rfl

/-- One middleware call preserves the equal-counters invariant of every map
entry, and its decision is never the `MaxRequestsExceeded` denial: on the
updated entry `retryCount = requests`, so whenever `requests > maxRequests`
the `retryCount > maxRetries` check has already fired. -/
theorem requestTrackingMiddleware_counts_eq
    (m : String → Option CallerWindow) (ip : String) (now : Nat)
    (hm : ∀ k v, m k = some v → v.retryCount = v.requests) :
    (∀ k v, (requestTrackingMiddleware m ip now).1 k = some v →
      v.retryCount = v.requests) ∧
    (requestTrackingMiddleware m ip now).2 ≠
      Decision.denied DenyReason.maxRequestsExceeded := by
  have hval := updateEntry_counts_eq (m ip) now (fun v hv => hm ip v hv)
  constructor
  · intro k v hk
    by_cases hki : k = ip
    · subst hki
      simp [requestTrackingMiddleware] at hk
      subst hk
      exact hval
    · simp only [requestTrackingMiddleware, if_neg hki] at hk
      exact hm k v hk
  · show (if maxRetries < (updateEntry (m ip) now).retryCount then
        Decision.denied DenyReason.maxRetriesExceeded
      else if (updateEntry (m ip) now).requests > maxRequests then
        Decision.denied DenyReason.maxRequestsExceeded
      else
        Decision.admitted (updateEntry (m ip) now).retryCount
          (getBackoffDelay (updateEntry (m ip) now).retryCount 100)) ≠
      Decision.denied DenyReason.maxRequestsExceeded
    by_cases hk : maxRetries < (updateEntry (m ip) now).retryCount
    · simp [hk]
    · have hreq : ¬ ((updateEntry (m ip) now).requests > maxRequests) := by
        rw [← hval]
        exact hk
      simp [hk, hreq]

/-- Over any call sequence, every entry of the map keeps
`retryCount = requests` and no decision is the `MaxRequestsExceeded`
denial. -/
theorem runRequests_counts_eq (calls : List (String × Nat)) :
    ∀ m : String → Option CallerWindow,
      (∀ k v, m k = some v → v.retryCount = v.requests) →
      (∀ k v, (runRequests m calls).1 k = some v →
        v.retryCount = v.requests) ∧
      Decision.denied DenyReason.maxRequestsExceeded ∉ (runRequests m calls).2 := by
  induction calls with
  | nil => intro m hm; exact ⟨hm, by simp [runRequests]⟩
  | cons c rest ih =>
    intro m hm
    have hstep := requestTrackingMiddleware_counts_eq m c.1 c.2 hm
    have hrest := ih (requestTrackingMiddleware m c.1 c.2).1 hstep.1
    refine ⟨hrest.1, ?_⟩
    have hmem : (runRequests m (c :: rest)).2 =
        (requestTrackingMiddleware m c.1 c.2).2 ::
          (runRequests (requestTrackingMiddleware m c.1 c.2).1 rest).2 := rfl
    rw [hmem]
    simp only [List.mem_cons, not_or]
    exact ⟨fun he => hstep.2 he.symm, hrest.2⟩

/-- Claim C10: after every admission-control call starting from the empty
map, every entry satisfies `retryCount = requests` (both counters are
initialized to 1 together and incremented together), and consequently the
`MaxRequestsExceeded` denial branch is unreachable: whenever `requests`
crosses the threshold, `retryCount` has crossed it too and the
`MaxRetriesExceeded` denial fires first. -/
theorem c10_counters_locked_together (calls : List (String × Nat)) :
    (∀ ip v, (runRequests emptyIpMap calls).1 ip = some v →
      v.retryCount = v.requests) ∧
    Decision.denied DenyReason.maxRequestsExceeded ∉
      (runRequests emptyIpMap calls).2 :=
  runRequests_counts_eq calls emptyIpMap (fun k v h => by
    simp [emptyIpMap] at h)

/-- Witness for C10 at a concrete input: five rapid calls from one ip are
never denied for `MaxRequestsExceeded` (the 4th and 5th are denied for
retries instead), and a concrete surviving entry has equal counters. -/
theorem c10_counters_locked_together_witness :
    ((runRequests emptyIpMap [("a", 0), ("a", 1)]).1 "a" =
      some ⟨2, 2, 0⟩) ∧
    ((⟨2, 2, 0⟩ : CallerWindow).retryCount = (⟨2, 2, 0⟩ : CallerWindow).requests) ∧
    Decision.denied DenyReason.maxRequestsExceeded ∉
      (runRequests emptyIpMap
        [("a", 0), ("a", 1), ("a", 2), ("a", 3), ("a", 4)]).2 := by
  refine ⟨by decide, ?_, ?_⟩
  · exact (c10_counters_locked_together [("a", 0), ("a", 1)]).1 "a" ⟨2, 2, 0⟩
      (by decide)
  · exact (c10_counters_locked_together
      [("a", 0), ("a", 1), ("a", 2), ("a", 3), ("a", 4)]).2

/-- A `POST /sendEmail` run whose hash is already a key of `idempotencyMap`
returns the duplicate page, leaves the map unchanged, and performs no side
effect at all. -/
theorem handleSendEmail_seen (h : String → String)
    (simulateAFails simulateBFails : Bool) (sendA sendB : Except String Unit)
    (now : Nat) (m : List String) (body : EmailRequest)
    (hmem : h (fingerprintInput body) ∈ m) :
    handleSendEmail h simulateAFails simulateBFails sendA sendB now m body =
      ⟨.ok .duplicatePage, m, []⟩ := by
  simp [handleSendEmail, hmem]

/-- A `POST /sendEmail` run whose hash is not yet a key of `idempotencyMap`
inserts the hash and then dispatches, in that order, whatever the dispatch
outcome is. -/
theorem handleSendEmail_not_seen (h : String → String)
    (simulateAFails simulateBFails : Bool) (sendA sendB : Except String Unit)
    (now : Nat) (m : List String) (body : EmailRequest)
    (hmem : h (fingerprintInput body) ∉ m) :
    (handleSendEmail h simulateAFails simulateBFails sendA sendB now m body).idempotencyMap =
      h (fingerprintInput body) :: m ∧
    (handleSendEmail h simulateAFails simulateBFails sendA sendB now m body).events =
      [.insertFingerprint (h (fingerprintInput body)), .dispatch] := by
  cases hE : MockEmailService.sendEmail simulateAFails simulateBFails sendA sendB now with
  | ok status => constructor <;> simp [handleSendEmail, hmem, hE]
  | error e => constructor <;> simp [handleSendEmail, hmem, hE]

/-- Claim C3: two `POST /sendEmail` requests with identical
`(from, to, subject, text)` within the lifetime of the idempotency map —
whatever the draws and provider outcomes of each — behave as: the first run
invokes the dispatcher, the second returns the duplicate page, leaves the
map unchanged, and does not invoke the dispatcher at all. -/
theorem c3_second_identical_request_is_duplicate (h : String → String)
    (fA1 fB1 : Bool) (sA1 sB1 : Except String Unit) (now1 : Nat)
    (fA2 fB2 : Bool) (sA2 sB2 : Except String Unit) (now2 : Nat)
    (m0 : List String) (body : EmailRequest)
    (hmem : h (fingerprintInput body) ∉ m0) :
    HandlerEvent.dispatch ∈
      (handleSendEmail h fA1 fB1 sA1 sB1 now1 m0 body).events ∧
    handleSendEmail h fA2 fB2 sA2 sB2 now2
        (handleSendEmail h fA1 fB1 sA1 sB1 now1 m0 body).idempotencyMap body =
      ⟨.ok .duplicatePage,
        (handleSendEmail h fA1 fB1 sA1 sB1 now1 m0 body).idempotencyMap, []⟩ ∧
    HandlerEvent.dispatch ∉
      (handleSendEmail h fA2 fB2 sA2 sB2 now2
        (handleSendEmail h fA1 fB1 sA1 sB1 now1 m0 body).idempotencyMap body).events := by
  have h1 := handleSendEmail_not_seen h fA1 fB1 sA1 sB1 now1 m0 body hmem
  have hin : h (fingerprintInput body) ∈
      (handleSendEmail h fA1 fB1 sA1 sB1 now1 m0 body).idempotencyMap := by
    rw [h1.1]
    exact List.mem_cons_self _ _
  have h2 := handleSendEmail_seen h fA2 fB2 sA2 sB2 now2 _ body hin
  refine ⟨?_, h2, ?_⟩
  · rw [h1.2]
    simp
  · rw [h2]
    simp

/-- Witness for C3 at a concrete input: the same body posted twice from an
empty idempotency map (first dispatch succeeding via A, second attempt drawn
to fail on both providers — which never happens, since it is short-circuited
as a duplicate without any dispatch). -/
theorem c3_second_identical_request_is_duplicate_witness :
    (id (fingerprintInput ⟨"a", "b", "c", "d"⟩) ∉ ([] : List String)) ∧
    HandlerEvent.dispatch ∈
      (handleSendEmail id false false (.ok ()) (.ok ()) 0 []
        ⟨"a", "b", "c", "d"⟩).events ∧
    handleSendEmail id true true (.ok ()) (.ok ()) 5
        (handleSendEmail id false false (.ok ()) (.ok ()) 0 []
          ⟨"a", "b", "c", "d"⟩).idempotencyMap ⟨"a", "b", "c", "d"⟩ =
      ⟨.ok .duplicatePage,
        (handleSendEmail id false false (.ok ()) (.ok ()) 0 []
          ⟨"a", "b", "c", "d"⟩).idempotencyMap, []⟩ ∧
    HandlerEvent.dispatch ∉
      (handleSendEmail id true true (.ok ()) (.ok ()) 5
        (handleSendEmail id false false (.ok ()) (.ok ()) 0 []
          ⟨"a", "b", "c", "d"⟩).idempotencyMap ⟨"a", "b", "c", "d"⟩).events := by
  have hc := c3_second_identical_request_is_duplicate id
    false false (.ok ()) (.ok ()) 0 true true (.ok ()) (.ok ()) 5 []
    ⟨"a", "b", "c", "d"⟩ (by decide)
  exact ⟨by decide, hc.1, hc.2.1, hc.2.2⟩

/-- Claim C6: on every non-duplicate request the handler's side-effect trace
is exactly "insert the fingerprint, then dispatch" — the insertion precedes
the send attempt, so the dispatcher only ever runs after the fingerprint is
in the map — and the fingerprint is in the map after the run for every draw
and provider outcome, including the ones where the send fails or raises. -/
theorem c6_insert_before_dispatch (h : String → String)
    (simulateAFails simulateBFails : Bool) (sendA sendB : Except String Unit)
    (now : Nat) (m : List String) (body : EmailRequest)
    (hmem : h (fingerprintInput body) ∉ m) :
    (handleSendEmail h simulateAFails simulateBFails sendA sendB now m body).events =
      [.insertFingerprint (h (fingerprintInput body)), .dispatch] ∧
    h (fingerprintInput body) ∈
      (handleSendEmail h simulateAFails simulateBFails sendA sendB now m body).idempotencyMap := by
  have h1 := handleSendEmail_not_seen h simulateAFails simulateBFails
    sendA sendB now m body hmem
  refine ⟨h1.2, ?_⟩
  rw [h1.1]
  exact List.mem_cons_self _ _

/-- Witness for C6 at a concrete input: both providers drawn to fail, so the
send fails — the fingerprint is inserted before the dispatch and is in the
map afterwards anyway. -/
theorem c6_insert_before_dispatch_witness :
    (id (fingerprintInput ⟨"a", "b", "c", "d"⟩) ∉ ([] : List String)) ∧
    (handleSendEmail id true true (.ok ()) (.ok ()) 0 []
        ⟨"a", "b", "c", "d"⟩).events =
      [.insertFingerprint (id (fingerprintInput ⟨"a", "b", "c", "d"⟩)),
        .dispatch] ∧
    id (fingerprintInput ⟨"a", "b", "c", "d"⟩) ∈
      (handleSendEmail id true true (.ok ()) (.ok ()) 0 []
        ⟨"a", "b", "c", "d"⟩).idempotencyMap := by
  have hc := c6_insert_before_dispatch id true true (.ok ()) (.ok ()) 0 []
    ⟨"a", "b", "c", "d"⟩ (by decide)
  exact ⟨by decide, hc.1, hc.2⟩

/-- `("-").data = ['-']`. -/
theorem dash_data : ("-" : String).data = ['-'] := rfl

/-- Splitting a list at a separator character is unambiguous when neither
prefix contains the separator: if `a1 ++ c :: b1 = a2 ++ c :: b2` with
`c ∉ a1` and `c ∉ a2`, then `a1 = a2` and `b1 = b2`. -/
theorem sep_split {c : Char} :
    ∀ (a1 a2 b1 b2 : List Char), c ∉ a1 → c ∉ a2 →
      a1 ++ c :: b1 = a2 ++ c :: b2 → a1 = a2 ∧ b1 = b2 := by
  intro a1
  induction a1 with
  | nil =>
    intro a2 b1 b2 _ h2 heq
    cases a2 with
    | nil =>
      refine ⟨rfl, ?_⟩
      simpa using heq
    | cons y a2' =>
      exfalso
      simp only [List.nil_append, List.cons_append, List.cons.injEq] at heq
      exact h2 (by rw [heq.1]; exact List.mem_cons_self y a2')
  | cons x a1' ih =>
    intro a2 b1 b2 h1 h2 heq
    cases a2 with
    | nil =>
      exfalso
      simp only [List.cons_append, List.nil_append, List.cons.injEq] at heq
      exact h1 (by rw [← heq.1]; exact List.mem_cons_self x a1')
    | cons y a2' =>
      simp only [List.cons_append, List.cons.injEq] at heq
      have h1' : c ∉ a1' := fun hm => h1 (List.mem_cons_of_mem x hm)
      have h2' : c ∉ a2' := fun hm => h2 (List.mem_cons_of_mem y hm)
      obtain ⟨ha, hb⟩ := ih a2' b1 b2 h1' h2' heq.2
      exact ⟨by rw [heq.1, ha], hb⟩

/-- The character list underlying the hash input: the four fields separated
by the dash character. -/
theorem fingerprintInput_data (r : EmailRequest) :
    (fingerprintInput r).data =
      r.«from».data ++ '-' ::
        (r.«to».data ++ '-' :: (r.subject.data ++ '-' :: r.text.data)) := by
  simp [fingerprintInput, String.data_append, dash_data]

/-- On requests whose first three fields are dash-free, the hash input
determines the request: the dash-separated concatenation can be split back
uniquely. -/
theorem fingerprintInput_inj (r1 r2 : EmailRequest)
    (h1f : dashFree r1.«from») (h1t : dashFree r1.«to») (h1s : dashFree r1.subject)
    (h2f : dashFree r2.«from») (h2t : dashFree r2.«to») (h2s : dashFree r2.subject)
    (heq : fingerprintInput r1 = fingerprintInput r2) : r1 = r2 := by
  have hd := congrArg String.data heq
  rw [fingerprintInput_data, fingerprintInput_data] at hd
  obtain ⟨e1, hd⟩ := sep_split _ _ _ _ h1f h2f hd
  obtain ⟨e2, hd⟩ := sep_split _ _ _ _ h1t h2t hd
  obtain ⟨e3, e4⟩ := sep_split _ _ _ _ h1s h2s hd
  obtain ⟨f1, t1, s1, x1⟩ := r1
  obtain ⟨f2, t2, s2, x2⟩ := r2
  have q1 : f1 = f2 := String.ext e1
  have q2 : t1 = t2 := String.ext e2
  have q3 : s1 = s2 := String.ext e3
  have q4 : x1 = x2 := String.ext e4
  rw [q1, q2, q3, q4]

/-- Claim C5 counterexample: the requests `("a-b","c","d","e")` and
`("a","b-c","d","e")` differ in two fields yet produce the same hash input
`"a-b-c-d-e"`, hence the same fingerprint under the (deterministic) digest;
with the digest collaborator instantiated, the second request is
short-circuited as a duplicate and never dispatched, refuting "distinct
fingerprints, so both produce independent, non-duplicate dispatch
attempts". -/
theorem c5_counterexample :
    (⟨"a-b", "c", "d", "e"⟩ : EmailRequest) ≠ ⟨"a", "b-c", "d", "e"⟩ ∧
    fingerprintInput ⟨"a-b", "c", "d", "e"⟩ =
      fingerprintInput ⟨"a", "b-c", "d", "e"⟩ ∧
    (handleSendEmail id false false (.ok ()) (.ok ()) 0
        (handleSendEmail id false false (.ok ()) (.ok ()) 0 []
          ⟨"a-b", "c", "d", "e"⟩).idempotencyMap
        ⟨"a", "b-c", "d", "e"⟩).response = .ok .duplicatePage ∧
    HandlerEvent.dispatch ∉
      (handleSendEmail id false false (.ok ()) (.ok ()) 0
        (handleSendEmail id false false (.ok ()) (.ok ()) 0 []
          ⟨"a-b", "c", "d", "e"⟩).idempotencyMap
        ⟨"a", "b-c", "d", "e"⟩).events := by
  decide

/-- Claim C5 as amended: two requests differing in at least one field
receive distinct hash inputs — hence distinct fingerprints up to digest
collisions — provided no field involved in the dash-joined prefix contains
the delimiter `-`; without that proviso, distinct requests can share a
fingerprint (see the counterexample). -/
theorem c5_amended_distinct_hash_inputs (r1 r2 : EmailRequest)
    (h1f : dashFree r1.«from») (h1t : dashFree r1.«to») (h1s : dashFree r1.subject)
    (h2f : dashFree r2.«from») (h2t : dashFree r2.«to») (h2s : dashFree r2.subject)
    (hne : r1 ≠ r2) : fingerprintInput r1 ≠ fingerprintInput r2 :=
  fun heq => hne (fingerprintInput_inj r1 r2 h1f h1t h1s h2f h2t h2s heq)

/-- Witness for the amended C5 at a concrete input: dash-free requests
differing only in `text` get different hash inputs. -/
theorem c5_amended_distinct_hash_inputs_witness :
    (dashFree ("a" : String) ∧ dashFree ("b" : String) ∧
      dashFree ("c" : String) ∧
      (⟨"a", "b", "c", "d"⟩ : EmailRequest) ≠ ⟨"a", "b", "c", "e"⟩) ∧
    fingerprintInput ⟨"a", "b", "c", "d"⟩ ≠
      fingerprintInput ⟨"a", "b", "c", "e"⟩ := by
  refine ⟨by decide, ?_⟩
  exact c5_amended_distinct_hash_inputs ⟨"a", "b", "c", "d"⟩ ⟨"a", "b", "c", "e"⟩
    (by decide) (by decide) (by decide) (by decide) (by decide) (by decide)
    (by decide)
